import Mathlib

/-!
Verification development for udp_test_remote.py, a small UDP test client.

The program sends one text command over UDP to a remote listener, waits up
to 2 seconds for one reply, classifies the reply (parsed JSON, raw text, or
timeout), optionally appends a log record, and can repeat the exchange in a
bounded or unbounded loop.  It can also move the process into another
process's network namespace before any socket is created.

The embedding below is a shallow one: external effects are parameters
(the container runtime lookup, the namespace system calls, the JSON parser
of the standard library, and the network, whose behaviour per exchange is
an `ExchEnv` value), while the program's own control flow, branching and
data handling are translated directly from the source.  Each model
definition cites the source lines it embeds.
-/

namespace UdpTestRemote

/-- Python truthiness of an optional string: None and the empty string are
falsy, every other string is truthy. -/
def pyTruthyStr : Option String → Bool
  | none => false
  | some s => s != ""

/-- Decimal digits to a natural number; none on an empty list or any
non-digit character.  The grouping underscores that Python's int() also
accepts are not modelled (no claim involves them). -/
def digitsToNat (cs : List Char) : Option Nat :=
  if cs.isEmpty then none
  else if cs.all Char.isDigit then
    some (cs.foldl (fun a c => a * 10 + (c.toNat - 48)) 0)
  else none

/-- Model of str.strip(): remove leading and trailing whitespace.
Python's whitespace set has a few extra control characters beyond
Char.isWhitespace; none of them can occur in the inputs the claims are
about. -/
def pyStrip (s : String) : String :=
  String.mk (((s.data.dropWhile Char.isWhitespace).reverse.dropWhile Char.isWhitespace).reverse)

/-- Model of Python int(s) applied to an already stripped string: an
optional sign followed by at least one decimal digit. -/
def pyToInt (s : String) : Option Int :=
  match s.data with
  | '+' :: rest => (digitsToNat rest).map (fun n => (n : Int))
  | '-' :: rest => (digitsToNat rest).map (fun n => -(n : Int))
  | cs => (digitsToNat cs).map (fun n => (n : Int))

/-- Decode one UTF-8 scalar value: lead byte b followed by the bytes l.
Returns the code point and how many continuation bytes were consumed.
Strict, like Python bytes.decode(): rejects stray continuation bytes,
overlong encodings (including lead bytes 0xC0/0xC1), surrogate code points
(lead 0xED with a second byte at or above 0xA0), code points above
0x10FFFF (lead 0xF4 with a second byte at or above 0x90) and lead bytes
0xF5 to 0xFF. -/
def utf8Step (b : Nat) (l : List Nat) : Option (Nat × Nat) :=
  if b < 0x80 then some (b, 0)
  else if b < 0xC2 then none
  else if b < 0xE0 then
    match l with
    | b1 :: _ =>
      if 0x80 ≤ b1 ∧ b1 < 0xC0 then
        some ((b - 0xC0) * 64 + (b1 - 0x80), 1)
      else none
    | [] => none
  else if b < 0xF0 then
    match l with
    | b1 :: b2 :: _ =>
      if (if b = 0xE0 then 0xA0 ≤ b1 ∧ b1 < 0xC0
          else if b = 0xED then 0x80 ≤ b1 ∧ b1 < 0xA0
          else 0x80 ≤ b1 ∧ b1 < 0xC0) ∧ (0x80 ≤ b2 ∧ b2 < 0xC0) then
        some ((b - 0xE0) * 4096 + (b1 - 0x80) * 64 + (b2 - 0x80), 2)
      else none
    | _ => none
  else if b < 0xF5 then
    match l with
    | b1 :: b2 :: b3 :: _ =>
      if (if b = 0xF0 then 0x90 ≤ b1 ∧ b1 < 0xC0
          else if b = 0xF4 then 0x80 ≤ b1 ∧ b1 < 0x90
          else 0x80 ≤ b1 ∧ b1 < 0xC0) ∧
         (0x80 ≤ b2 ∧ b2 < 0xC0) ∧ (0x80 ≤ b3 ∧ b3 < 0xC0) then
        some ((b - 0xF0) * 262144 + (b1 - 0x80) * 4096 + (b2 - 0x80) * 64 + (b3 - 0x80), 3)
      else none
    | _ => none
  else none

/-- Worker for utf8Decode, structurally recursive on a fuel that bounds the
number of scalars still to decode; each scalar consumes at least one byte,
so a fuel of the list length never runs out (the fuel-exhausted case is
unreachable when fuel is at least the list length). -/
def utf8DecodeAux : Nat → List Nat → Option (List Nat)
  | _, [] => some []
  | 0, _ :: _ => none
  | fuel + 1, b :: t =>
    match utf8Step b t with
    | none => none
    | some (c, extra) => (utf8DecodeAux fuel (t.drop extra)).map (fun cs => c :: cs)

/-- Strict UTF-8 decoding of a byte list into code points; none as soon as
one scalar is malformed, like Python bytes.decode() raising
UnicodeDecodeError. -/
def utf8Decode (l : List Nat) : Option (List Nat) :=
  utf8DecodeAux l.length l

/-- Model of bytes.decode() producing a string. -/
def utf8DecodeString (data : List Nat) : Option String :=
  (utf8Decode data).map (fun cs => String.mk (cs.map Char.ofNat))

/-- JSON values as produced by json.loads.  Numbers are modelled as
integers; the JSON parser itself is a parameter everywhere (it is library
code, not part of this repository), so only the shape matters. -/
inductive Json where
  | null
  | bool (b : Bool)
  | num (n : Int)
  | str (s : String)
  | arr (elems : List Json)
  | obj (fields : List (String × Json))

/-- Value of the logformat option (line 174). -/
inductive LogFormat where
  | json
  | csv
deriving DecidableEq

/-- Value of the log-on option (line 175). -/
inductive LogOn where
  | all
  | success
  | fail
deriving DecidableEq, BEq

/-- Value of the timestamp-format option (line 176). -/
inductive TsFormat where
  | iso
  | unix
deriving DecidableEq

/-- The configuration fields of args that send_and_receive reads
(lines 148, 149, 153, 154, 157, 158). -/
structure Config where
  logfile : Option String
  logformat : LogFormat
  log_on : LogOn
  timestamp_format : TsFormat

/-- The response field of a log record: either a parsed JSON document
(line 149) or plain text (lines 154 and 158). -/
inductive LogValue where
  | json (j : Json)
  | text (s : String)

/-- One record appended by log_entry (lines 120-133).  The timestamp is
wall-clock time and is not modelled; the query and response fields are. -/
structure LogRecord where
  command : String
  response : LogValue

/-- Classification of one exchange, per the spec's Outcome data model. -/
inductive Outcome where
  | successStructured (j : Json)
  | successRaw (text : String)
  | timeout

/-- Both Success cases of an Outcome. -/
def Outcome.isSuccess : Outcome → Bool
  | .timeout => false
  | _ => true

/-- Python exceptions that can propagate uncaught in this program. -/
inductive PyError where
  | unicodeDecodeError
  | valueError
  | osError
deriving DecidableEq

/-- How the process dies on a fatal path: an explicit sys.exit with a
printed diagnostic, or an uncaught exception unwinding out of main. -/
inductive PyFatal where
  | sysExit (diag : String) (code : Nat)
  | uncaught (e : PyError)
deriving DecidableEq

/-- Process exit code of a fatal end: sys.exit(c) exits with c; an uncaught
exception makes the interpreter exit with 1. -/
def fatalExitCode : PyFatal → Nat
  | .sysExit _ c => c
  | .uncaught _ => 1

/-- Boolean success test for an Except value. -/
def exceptOk {ε : Type} {α : Type} : Except ε α → Bool
  | .ok _ => true
  | .error _ => false

/-- Model of enter_netns (lines 86-99).  euid models os.geteuid();
openNs bundles the os.open / setns / os.close sequence of lines 93-95, any
exception from which is caught at line 97.  A non-root caller or a failed
namespace switch prints a diagnostic and exits with code 1. -/
def enter_netns (euid : Nat) (openNs : Int → Except String Unit) (pid : Int) :
    Except PyFatal Unit :=
  if euid ≠ 0 then
    Except.error (PyFatal.sysExit "Error: Must be root to enter a network namespace." 1)
  else
    match openNs pid with
    | Except.ok _ => Except.ok ()
    | Except.error e =>
        Except.error (PyFatal.sysExit ("Failed to enter network namespace: " ++ e) 1)

/-- Model of get_pid_from_compose_name (lines 101-112).  run models
subprocess.run of docker inspect with check=True: error carries the stderr
of a CalledProcessError, ok carries the stdout.  A runtime error is caught
and turned into a diagnostic plus sys.exit(1); non-numeric stdout makes
int() raise ValueError, which the except clause (CalledProcessError only)
does not catch, so it propagates uncaught. -/
def get_pid_from_compose_name (run : String → Except String String)
    (compose_name : String) : Except PyFatal Int :=
  match run compose_name with
  | Except.error stderr =>
      Except.error (PyFatal.sysExit
        ("Could not resolve container '" ++ compose_name ++ "': " ++ stderr) 1)
  | Except.ok stdout =>
      match pyToInt (pyStrip stdout) with
      | some pid => Except.ok pid
      | none => Except.error (PyFatal.uncaught PyError.valueError)

/-- What the network does during one exchange: the sendto call raises an
OSError, or no datagram arrives within the receive timeout, or one
datagram with the given payload bytes arrives. -/
inductive ExchEnv where
  | sendError (msg : String)
  | timeout
  | received (data : List Nat)

/-- Observable steps of one send_and_receive call, in program order. -/
inductive ExchStep where
  | sockCreate
  | sockBind (port : Int)
  | sockSettimeout (secs : Nat)
  | sockSend (payload : String)
  | sockRecv
  | printOut (s : String)
  | printJson (j : Json)
  | logWrite (rec : LogRecord)
  | sockClose

/-- The logging guard of lines 148, 153 and 157: config.logfile must be
truthy and config.log_on must be in the given list. -/
def logCond (cfg : Config) (ons : List LogOn) : Bool :=
  pyTruthyStr cfg.logfile && ons.contains cfg.log_on

/-- Model of send_and_receive (lines 135-160).  parse models json.loads
(library code, a parameter).  Returns the socket/print/log step trace and
either the classified Outcome or the exception that propagates out.
Translation notes per branch:
* sendError: sendto raises OSError at line 141; the except clause at
  line 155 matches only socket.timeout, so the error propagates, but the
  finally clause at line 159 still closes the socket first.
* timeout: lines 155-158, a Timeout outcome, logged under policy all/fail.
* received, undecodable bytes: data.decode() at line 145 raises
  UnicodeDecodeError; the inner except at line 150 catches only
  json.JSONDecodeError, so the error propagates after the socket closes.
* received, JSON parse ok: lines 145-149, Success(structured), the parsed
  document pretty-printed and logged under policy all/success.
* received, JSON parse fails: lines 150-154, Success(raw text), the
  decoded text printed and logged unchanged under policy all/fail.
The sender-address print of line 143 is environment data and not
modelled. -/
def send_and_receive (listen_port : Int) (command : String) (cfg : Config)
    (parse : String → Option Json) (env : ExchEnv) :
    List ExchStep × Except PyError Outcome :=
  let pre : List ExchStep :=
    [ExchStep.sockCreate, ExchStep.sockBind listen_port, ExchStep.sockSettimeout 2]
  match env with
  | ExchEnv.sendError _ =>
      (pre ++ [ExchStep.sockSend command, ExchStep.sockClose],
       Except.error PyError.osError)
  | ExchEnv.timeout =>
      (pre ++ [ExchStep.sockSend command, ExchStep.sockRecv,
               ExchStep.printOut "Keine Antwort empfangen (Timeout)"] ++
       (if logCond cfg [LogOn.all, LogOn.fail] then
          [ExchStep.logWrite ⟨command, LogValue.text "Timeout"⟩]
        else []) ++
       [ExchStep.sockClose],
       Except.ok Outcome.timeout)
  | ExchEnv.received data =>
      match utf8DecodeString data with
      | none =>
          (pre ++ [ExchStep.sockSend command, ExchStep.sockRecv, ExchStep.sockClose],
           Except.error PyError.unicodeDecodeError)
      | some text =>
          match parse text with
          | some j =>
              (pre ++ [ExchStep.sockSend command, ExchStep.sockRecv,
                       ExchStep.printJson j] ++
               (if logCond cfg [LogOn.all, LogOn.success] then
                  [ExchStep.logWrite ⟨command, LogValue.json j⟩]
                else []) ++
               [ExchStep.sockClose],
               Except.ok (Outcome.successStructured j))
          | none =>
              (pre ++ [ExchStep.sockSend command, ExchStep.sockRecv,
                       ExchStep.printOut "Antwort ist kein gueltiges JSON:",
                       ExchStep.printOut text] ++
               (if logCond cfg [LogOn.all, LogOn.fail] then
                  [ExchStep.logWrite ⟨command, LogValue.text text⟩]
                else []) ++
               [ExchStep.sockClose],
               Except.ok (Outcome.successRaw text))

/-- The log records written during one call, in order. -/
def logsOf (steps : List ExchStep) : List LogRecord :=
  steps.filterMap (fun s =>
    match s with
    | ExchStep.logWrite r => some r
    | _ => none)

/-- Which loop the session driver runs. -/
inductive LoopAction where
  | finite (n : Int)
  | unbounded
deriving DecidableEq

/-- The branch taken by loop_handler (lines 186-200): Python's
`if args.repeat:` is false both for None and for 0, so a repeat count of 0
falls into the unbounded branch exactly like an absent repeat count. -/
def loop_handler (repeat_arg : Option Int) : LoopAction :=
  match repeat_arg with
  | some n => if n ≠ 0 then LoopAction.finite n else LoopAction.unbounded
  | none => LoopAction.unbounded

/-- Print / call / sleep events of the finite-repeat branch. -/
inductive LoopEvent where
  | printLooping
  | progress (i : Nat) (total : Int)
  | exchangeCall
  | sleep5
deriving DecidableEq

/-- One iteration of the finite loop body (lines 190-192): the 1-based
progress print, the exchange call, then time.sleep(5). -/
def loopBlock (n : Int) (i : Nat) : List LoopEvent :=
  [LoopEvent.progress (i + 1) n, LoopEvent.exchangeCall, LoopEvent.sleep5]

/-- Event trace of the finite-repeat branch (lines 187-192), with every
exchange returning normally: one announcement print, then for each
i in range(repeat) the loop body.  Python's range is empty for a
non-positive count. -/
def finiteLoopEvents (n : Int) : List LoopEvent :=
  LoopEvent.printLooping :: (List.range n.toNat).flatMap (loopBlock n)

/-- Test for the exchange-call event. -/
def isExchangeCall : LoopEvent → Bool
  | LoopEvent.exchangeCall => true
  | _ => false

/-- Test for the 5-second-sleep event. -/
def isSleep5 : LoopEvent → Bool
  | LoopEvent.sleep5 => true
  | _ => false

/-- Session-level events: a step of the i-th exchange call (0-based), or
the 5-second sleep between iterations. -/
inductive SessEvent where
  | call (i : Nat) (s : ExchStep)
  | sleep5

/-- Iterated exchanges separated by 5-second sleeps: the common iteration
shape of the finite loop (lines 189-192) and the unbounded loop
(lines 195-198), at the granularity of socket/log steps.  envs lists the
network behaviour of the successive exchanges (for the unbounded loop: the
exchanges completed before the user interrupt).  If a call raises, its
exception propagates: no later iteration runs, and the second component is
false. -/
def sessionLoop (port : Int) (cmd : String) (cfg : Config)
    (parse : String → Option Json) : Nat → List ExchEnv → List SessEvent × Bool
  | _, [] => ([], true)
  | i, env :: rest =>
    let r := send_and_receive port cmd cfg parse env
    match r.2 with
    | Except.error _ => ((r.1).map (SessEvent.call i), false)
    | Except.ok _ =>
      let t := sessionLoop port cmd cfg parse (i + 1) rest
      ((r.1).map (SessEvent.call i) ++ SessEvent.sleep5 :: t.1, t.2)

/-- The log records attributed to call i in a session trace, in order. -/
def recordsAt (i : Nat) (tr : List SessEvent) : List LogRecord :=
  tr.filterMap (fun e =>
    match e with
    | SessEvent.call i' (ExchStep.logWrite r) => if i' = i then some r else none
    | _ => none)

/-- The parsed command-line arguments of main (lines 163-178). -/
structure Args where
  port : Int
  query : String
  loop : Bool
  repeat_arg : Option Int
  ns_pid : Option Int
  compose_name : Option String
  remote_ip : String
  remote_port : Int
  logfile : Option String
  logformat : LogFormat
  log_on : LogOn
  timestamp_format : TsFormat

/-- The configuration slice of args that send_and_receive reads. -/
def cfgOf (args : Args) : Config :=
  ⟨args.logfile, args.logformat, args.log_on, args.timestamp_format⟩

/-- Lines 180-181 of main: when compose_name is truthy, ns_pid is replaced
by the pid resolved from the container runtime; resolution failure is
fatal. -/
def resolveStep (args : Args) (run : String → Except String String) :
    Except PyFatal (Option Int) :=
  match args.compose_name with
  | some name =>
      if name ≠ "" then (get_pid_from_compose_name run name).map (fun p => some p)
      else Except.ok args.ns_pid
  | none => Except.ok args.ns_pid

/-- Namespace entry is requested when compose resolution succeeds and
leaves a truthy ns_pid for line 183 (Python's `if args.ns_pid:` is false
for None and 0). -/
def nsRequested (args : Args) (run : String → Except String String) : Bool :=
  match resolveStep args run with
  | Except.ok (some pid) => pid != 0
  | _ => false

/-- Program-level events of one run of main. -/
inductive ProgEvent where
  | printDiag (s : String)
  | session (e : SessEvent)

/-- Test for the socket-creation step at program level. -/
def ProgEvent.isSockCreate : ProgEvent → Bool
  | ProgEvent.session (SessEvent.call _ ExchStep.sockCreate) => true
  | _ => false

/-- Session phase of main (lines 186-206): single shot when loop is off,
otherwise the branch chosen by loop_handler.  The finite loop consumes the
first n network results.  Informational prints are modelled at the
LoopEvent granularity instead (finiteLoopEvents). -/
def sessionPhase (args : Args) (parse : String → Option Json)
    (envs : List ExchEnv) : List SessEvent × Bool :=
  if args.loop then
    match loop_handler args.repeat_arg with
    | LoopAction.finite n =>
        sessionLoop args.port args.query (cfgOf args) parse 0 (envs.take n.toNat)
    | LoopAction.unbounded =>
        sessionLoop args.port args.query (cfgOf args) parse 0 envs
  else
    let r := send_and_receive args.port args.query (cfgOf args) parse
      (envs.headD ExchEnv.timeout)
    ((r.1).map (SessEvent.call 0), exceptOk r.2)

/-- Trace and exit code of the session phase: a run whose exchanges all
return normally ends with exit code 0 (a clean interrupt of the unbounded
loop included); an uncaught exception makes the interpreter exit 1. -/
def sessionResult (args : Args) (parse : String → Option Json)
    (envs : List ExchEnv) : List ProgEvent × Nat :=
  let s := sessionPhase args parse envs
  ((s.1).map ProgEvent.session, if s.2 then 0 else 1)

/-- Model of main after argument parsing (lines 180-206): compose-name
resolution, then namespace entry, then the session.  Returns the event
trace and the process exit code.  A sys.exit on the namespace path prints
its diagnostic and stops everything after it; an uncaught exception does
the same with exit code 1. -/
def main_model (args : Args) (euid : Nat) (run : String → Except String String)
    (openNs : Int → Except String Unit) (parse : String → Option Json)
    (envs : List ExchEnv) : List ProgEvent × Nat :=
  match resolveStep args run with
  | Except.error (PyFatal.sysExit diag c) => ([ProgEvent.printDiag diag], c)
  | Except.error (PyFatal.uncaught _) => ([], 1)
  | Except.ok nsPid =>
    match nsPid with
    | some pid =>
      if pid ≠ 0 then
        match enter_netns euid openNs pid with
        | Except.error (PyFatal.sysExit diag c) => ([ProgEvent.printDiag diag], c)
        | Except.error (PyFatal.uncaught _) => ([], 1)
        | Except.ok _ => sessionResult args parse envs
      else sessionResult args parse envs
    | none => sessionResult args parse envs

/-- A JSON parser that always fails, for concrete instantiations. -/
def noParse : String → Option Json := fun _ => none

/-- Concrete configurations for the three filter policies. -/
def cfgLogAll : Config := ⟨some "udp_log.json", LogFormat.json, LogOn.all, TsFormat.iso⟩

/-- Concrete configuration with the success filter policy. -/
def cfgLogSuccess : Config := ⟨some "udp_log.json", LogFormat.json, LogOn.success, TsFormat.iso⟩

/-- Concrete configuration with the fail filter policy. -/
def cfgLogFail : Config := ⟨some "udp_log.json", LogFormat.json, LogOn.fail, TsFormat.iso⟩

/-- A container-runtime lookup whose stdout is not numeric. -/
def runOkAbc : String → Except String String := fun _ => Except.ok "abc"

/-- A container-runtime lookup that fails. -/
def runErrBoom : String → Except String String := fun _ => Except.error "boom"

/-- A namespace switch that always succeeds. -/
def openNsOk : Int → Except String Unit := fun _ => Except.ok ()

/-- Concrete arguments requesting namespace entry for pid 5, loop off. -/
def argsNsDemo : Args :=
  ⟨44440, "none", false, none, some 5, none, "127.0.0.1", 44444,
   none, LogFormat.json, LogOn.all, TsFormat.iso⟩

/-- C7 (confirmed): on every exit path of the exchange operation —
structured-reply success, parse failure with a raw reply, timeout, invalid
reply bytes, and a send error — the last socket action of the call is the
socket close; the finally clause at line 159 runs on every path. -/
theorem c7_socket_always_closed (listen_port : Int) (command : String) (cfg : Config)
    (parse : String → Option Json) (env : ExchEnv) :
    ((send_and_receive listen_port command cfg parse env).1).getLast? =
      some ExchStep.sockClose := by
  cases env with
  | sendError msg => simp [send_and_receive]
  | timeout =>
      cases h : logCond cfg [LogOn.all, LogOn.fail] <;>
        simp [send_and_receive, h]
  | received data =>
      cases hd : utf8DecodeString data with
      | none => simp [send_and_receive, hd]
      | some text =>
          cases hp : parse text with
          | some j =>
              cases h : logCond cfg [LogOn.all, LogOn.success] <;>
                simp [send_and_receive, hd, hp, h]
          | none =>
              cases h : logCond cfg [LogOn.all, LogOn.fail] <;>
                simp [send_and_receive, hd, hp, h]

/-- C8 (confirmed): the exchange sets the 2-second receive timeout (third
socket action, before the receive at the fifth position), and when no
reply arrives within the window the call returns the Timeout outcome
instead of blocking; the actual elapse of wall-clock time is the operating
system's contract for the configured timeout. -/
theorem c8_timeout_returns (listen_port : Int) (command : String) (cfg : Config)
    (parse : String → Option Json) :
    (send_and_receive listen_port command cfg parse ExchEnv.timeout).2 =
      Except.ok Outcome.timeout ∧
    ((send_and_receive listen_port command cfg parse ExchEnv.timeout).1)[2]? =
      some (ExchStep.sockSettimeout 2) ∧
    ((send_and_receive listen_port command cfg parse ExchEnv.timeout).1)[4]? =
      some ExchStep.sockRecv := by
  cases h : logCond cfg [LogOn.all, LogOn.fail] <;>
    simp [send_and_receive, h]

/-- C9 (confirmed): with loop mode on and an explicit repeat count of 0,
Python's `if args.repeat:` is false, so the driver takes the unbounded
branch, exactly as when the repeat count is absent. -/
theorem c9_zero_repeat_is_unbounded :
    loop_handler (some 0) = LoopAction.unbounded ∧
    loop_handler (some 0) = loop_handler none :=
  ⟨rfl, rfl⟩

/-- C10 (confirmed): a reply payload that is not valid UTF-8 (the single
byte 0xFF) makes the exchange produce no classified Outcome at all: the
decode error propagates out uncaught (only json.JSONDecodeError is
downgraded to the raw branch), and nothing is logged. -/
theorem c10_invalid_utf8_uncaught (listen_port : Int) (command : String) (cfg : Config)
    (parse : String → Option Json) :
    utf8DecodeString [255] = none ∧
    (send_and_receive listen_port command cfg parse (ExchEnv.received [255])).2 =
      Except.error PyError.unicodeDecodeError ∧
    logsOf (send_and_receive listen_port command cfg parse (ExchEnv.received [255])).1 = [] :=
  ⟨rfl, rfl, rfl⟩

/-- C4 (confirmed): for a reply whose bytes decode to a text, the outcome
is the parsed structure whenever the structured parse succeeds, and
exactly the decoded text, unchanged, whenever the structured parse fails:
the raw branch is lossless. -/
theorem c4_reply_classification (listen_port : Int) (command : String) (cfg : Config)
    (parse : String → Option Json) (data : List Nat) (text : String)
    (hdec : utf8DecodeString data = some text) :
    (∀ j, parse text = some j →
        (send_and_receive listen_port command cfg parse (ExchEnv.received data)).2 =
          Except.ok (Outcome.successStructured j)) ∧
    (parse text = none →
        (send_and_receive listen_port command cfg parse (ExchEnv.received data)).2 =
          Except.ok (Outcome.successRaw text)) := by
  constructor
  · intro j hj
    simp [send_and_receive, hdec, hj]
  · intro hj
    simp [send_and_receive, hdec, hj]

/-- Witness for c4_reply_classification at the reply bytes of "hi" and a
parser that fails on it. -/
theorem c4_reply_classification_witness :
    utf8DecodeString [104, 105] = some "hi" ∧
    ((∀ j, noParse "hi" = some j →
        (send_and_receive 44440 "none" cfgLogAll noParse (ExchEnv.received [104, 105])).2 =
          Except.ok (Outcome.successStructured j)) ∧
     (noParse "hi" = none →
        (send_and_receive 44440 "none" cfgLogAll noParse (ExchEnv.received [104, 105])).2 =
          Except.ok (Outcome.successRaw "hi"))) :=
  ⟨by decide,
   c4_reply_classification 44440 "none" cfgLogAll noParse [104, 105] "hi" (by decide)⟩

/-- C1 as stated is false on the code: with the fail filter policy, a
raw-text reply — a Success outcome in the spec's classification — is
logged (the code treats a failed JSON parse as a "fail" for logging).
Concrete violation: policy fail, reply byte 0x78 ("x"), parser fails, the
call returns Success(raw "x") and still writes one log record. -/
theorem c1_counterexample :
    ¬ (∀ (listen_port : Int) (command : String) (cfg : Config)
         (parse : String → Option Json) (env : ExchEnv) (out : Outcome),
        (send_and_receive listen_port command cfg parse env).2 = Except.ok out →
        ((cfg.log_on = LogOn.success → out = Outcome.timeout →
            logsOf (send_and_receive listen_port command cfg parse env).1 = []) ∧
         (cfg.log_on = LogOn.fail → out.isSuccess = true →
            logsOf (send_and_receive listen_port command cfg parse env).1 = []))) := by
  intro h
  have h2 := (h 44440 "q" cfgLogFail noParse (ExchEnv.received [120])
      (Outcome.successRaw "x") rfl).2 rfl rfl
  rw [show logsOf (send_and_receive 44440 "q" cfgLogFail noParse
        (ExchEnv.received [120])).1 = [⟨"q", LogValue.text "x"⟩] from rfl] at h2
  simp at h2

/-- C1 amended (proved): the success filter policy never writes a record
for a Timeout outcome, and the fail filter policy never writes a record
for a parsed-structured-reply Success; raw-text-reply Successes, however,
are written under the fail policy (see c1_counterexample). -/
theorem c1_amended_filter_policy (listen_port : Int) (command : String) (cfg : Config)
    (parse : String → Option Json) (env : ExchEnv) (out : Outcome)
    (h : (send_and_receive listen_port command cfg parse env).2 = Except.ok out) :
    (cfg.log_on = LogOn.success → out = Outcome.timeout →
        logsOf (send_and_receive listen_port command cfg parse env).1 = []) ∧
    (cfg.log_on = LogOn.fail → ∀ j, out = Outcome.successStructured j →
        logsOf (send_and_receive listen_port command cfg parse env).1 = []) := by
  cases env with
  | sendError msg => simp [send_and_receive] at h
  | timeout =>
      have hout : out = Outcome.timeout := by
        simp [send_and_receive] at h
        exact h.symm
      subst hout
      constructor
      · intro hlo _
        have hc : logCond cfg [LogOn.all, LogOn.fail] = false := by
          unfold logCond
          rw [hlo, show ([LogOn.all, LogOn.fail]).contains LogOn.success = false from rfl,
            Bool.and_false]
        simp [send_and_receive, logsOf, hc]
      · intro _ j hj
        exact absurd hj (by simp)
  | received data =>
      cases hd : utf8DecodeString data with
      | none => simp [send_and_receive, hd] at h
      | some text =>
          cases hp : parse text with
          | some j0 =>
              have hout : out = Outcome.successStructured j0 := by
                simp [send_and_receive, hd, hp] at h
                exact h.symm
              subst hout
              constructor
              · intro _ hto
                exact absurd hto (by simp)
              · intro hlo j hj
                have hc : logCond cfg [LogOn.all, LogOn.success] = false := by
                  unfold logCond
                  rw [hlo, show ([LogOn.all, LogOn.success]).contains LogOn.fail = false from rfl,
                    Bool.and_false]
                simp [send_and_receive, hd, hp, logsOf, hc]
          | none =>
              have hout : out = Outcome.successRaw text := by
                simp [send_and_receive, hd, hp] at h
                exact h.symm
              subst hout
              constructor
              · intro _ hto
                exact absurd hto (by simp)
              · intro _ j hj
                exact absurd hj (by simp)

/-- Witness for c1_amended_filter_policy at the success policy and a
timed-out exchange. -/
theorem c1_amended_filter_policy_witness :
    (send_and_receive 44440 "q" cfgLogSuccess noParse ExchEnv.timeout).2 =
      Except.ok Outcome.timeout ∧
    ((cfgLogSuccess.log_on = LogOn.success → Outcome.timeout = Outcome.timeout →
        logsOf (send_and_receive 44440 "q" cfgLogSuccess noParse ExchEnv.timeout).1 = []) ∧
     (cfgLogSuccess.log_on = LogOn.fail → ∀ j, Outcome.timeout = Outcome.successStructured j →
        logsOf (send_and_receive 44440 "q" cfgLogSuccess noParse ExchEnv.timeout).1 = [])) :=
  ⟨rfl, c1_amended_filter_policy 44440 "q" cfgLogSuccess noParse ExchEnv.timeout
    Outcome.timeout rfl⟩

/-- Length of the finite loop body over range m: three events per
iteration. -/
theorem loopBody_length (n : Int) :
    ∀ m : Nat, ((List.range m).flatMap (loopBlock n)).length = 3 * m := by
  intro m
  induction m with
  | zero => rfl
  | succ m ih =>
      rw [List.range_succ, List.flatMap_append, List.length_append, ih]
      simp [loopBlock]
      omega

/-- Each iteration of the finite loop body contributes one exchange call. -/
theorem loopBody_countP_exchange (n : Int) :
    ∀ m : Nat, ((List.range m).flatMap (loopBlock n)).countP isExchangeCall = m := by
  intro m
  induction m with
  | zero => rfl
  | succ m ih =>
      rw [List.range_succ, List.flatMap_append, List.countP_append, ih]
      simp [loopBlock, isExchangeCall, List.countP_cons]

/-- Each iteration of the finite loop body contributes one sleep. -/
theorem loopBody_countP_sleep (n : Int) :
    ∀ m : Nat, ((List.range m).flatMap (loopBlock n)).countP isSleep5 = m := by
  intro m
  induction m with
  | zero => rfl
  | succ m ih =>
      rw [List.range_succ, List.flatMap_append, List.countP_append, ih]
      simp [loopBlock, isSleep5, List.countP_cons]

/-- Positions of the i-th iteration inside the finite loop body: progress
print, then the exchange call, then the sleep. -/
theorem loopBody_getElem (n : Int) :
    ∀ m i : Nat, i < m →
      ((List.range m).flatMap (loopBlock n))[3 * i]? = some (LoopEvent.progress (i + 1) n) ∧
      ((List.range m).flatMap (loopBlock n))[3 * i + 1]? = some LoopEvent.exchangeCall ∧
      ((List.range m).flatMap (loopBlock n))[3 * i + 2]? = some LoopEvent.sleep5 := by
  intro m
  induction m with
  | zero => intro i hi; exact absurd hi (Nat.not_lt_zero i)
  | succ m ih =>
      intro i hi
      rw [List.range_succ, List.flatMap_append]
      have hlen : ((List.range m).flatMap (loopBlock n)).length = 3 * m := loopBody_length n m
      by_cases him : i < m
      · obtain ⟨h0, h1, h2⟩ := ih i him
        exact ⟨by rw [List.getElem?_append_left (by omega)]; exact h0,
               by rw [List.getElem?_append_left (by omega)]; exact h1,
               by rw [List.getElem?_append_left (by omega)]; exact h2⟩
      · have hieq : i = m := by omega
        subst hieq
        refine ⟨?_, ?_, ?_⟩ <;> rw [List.getElem?_append_right (by omega), hlen]
        · rw [show 3 * i - 3 * i = 0 from by omega]; rfl
        · rw [show 3 * i + 1 - 3 * i = 1 from by omega]; rfl
        · rw [show 3 * i + 2 - 3 * i = 2 from by omega]; rfl

/-- A nonempty finite loop body ends with the sleep of its last
iteration. -/
theorem loopBody_getLast (n : Int) (m : Nat) (hm : 0 < m) :
    ((List.range m).flatMap (loopBlock n)).getLast? = some LoopEvent.sleep5 := by
  obtain ⟨k, rfl⟩ : ∃ k, m = k + 1 := ⟨m - 1, by omega⟩
  rw [List.range_succ, List.flatMap_append, List.getLast?_append]
  rfl

/-- C2 as stated is false on the code: the finite loop sleeps after every
call, the last included (line 192 runs inside the loop body), so with N=3
there are 3 delays, not 2, and the trace ends with a delay. -/
theorem c2_counterexample :
    ¬ ((finiteLoopEvents 3).countP isSleep5 = 3 - 1 ∧
       (finiteLoopEvents 3).getLast? ≠ some LoopEvent.sleep5) := by
  decide

/-- C2 amended (proved): for every finite repeat count N greater than 0,
the loop performs exactly N exchange calls, prints the 1-based progress
indicator immediately before each call, and sleeps 5 seconds after every
call including the last: exactly N delays, and the trace ends with a
delay. -/
theorem c2_amended_finite_loop (n : Int) (h : 0 < n) :
    (finiteLoopEvents n).countP isExchangeCall = n.toNat ∧
    (finiteLoopEvents n).countP isSleep5 = n.toNat ∧
    (∀ i : Nat, i < n.toNat →
        (finiteLoopEvents n)[3 * i + 1]? = some (LoopEvent.progress (i + 1) n) ∧
        (finiteLoopEvents n)[3 * i + 2]? = some LoopEvent.exchangeCall ∧
        (finiteLoopEvents n)[3 * i + 3]? = some LoopEvent.sleep5) ∧
    (finiteLoopEvents n).getLast? = some LoopEvent.sleep5 := by
  have hpos : 0 < n.toNat := by omega
  refine ⟨?_, ?_, ?_, ?_⟩
  · have hb := loopBody_countP_exchange n n.toNat
    simpa [finiteLoopEvents, List.countP_cons, isExchangeCall] using hb
  · have hb := loopBody_countP_sleep n n.toNat
    simpa [finiteLoopEvents, List.countP_cons, isSleep5] using hb
  · intro i hi
    obtain ⟨h0, h1, h2⟩ := loopBody_getElem n n.toNat i hi
    rw [finiteLoopEvents]
    exact ⟨by rw [show 3 * i + 1 = (3 * i) + 1 from rfl, List.getElem?_cons_succ]; exact h0,
           by rw [show 3 * i + 2 = (3 * i + 1) + 1 from rfl, List.getElem?_cons_succ]; exact h1,
           by rw [show 3 * i + 3 = (3 * i + 2) + 1 from rfl, List.getElem?_cons_succ]; exact h2⟩
  · rw [finiteLoopEvents, show LoopEvent.printLooping :: (List.range n.toNat).flatMap (loopBlock n)
        = [LoopEvent.printLooping] ++ (List.range n.toNat).flatMap (loopBlock n) from rfl,
      List.getLast?_append, loopBody_getLast n n.toNat hpos]
    rfl

/-- Witness for c2_amended_finite_loop at N = 3. -/
theorem c2_amended_finite_loop_witness :
    (0 : Int) < 3 ∧
    ((finiteLoopEvents 3).countP isExchangeCall = (3 : Int).toNat ∧
     (finiteLoopEvents 3).countP isSleep5 = (3 : Int).toNat ∧
     (∀ i : Nat, i < (3 : Int).toNat →
        (finiteLoopEvents 3)[3 * i + 1]? = some (LoopEvent.progress (i + 1) 3) ∧
        (finiteLoopEvents 3)[3 * i + 2]? = some LoopEvent.exchangeCall ∧
        (finiteLoopEvents 3)[3 * i + 3]? = some LoopEvent.sleep5) ∧
     (finiteLoopEvents 3).getLast? = some LoopEvent.sleep5) :=
  ⟨by decide, c2_amended_finite_loop 3 (by decide)⟩

/-- C6 as stated is false on the code: the non-numeric-output shape is not
handled.  With a lookup whose stdout is "abc", int() raises a ValueError
that the except clause (CalledProcessError only) does not catch, so the
resolver ends in an uncaught exception, not in the handled
diagnostic-plus-sys.exit path the claim describes for both shapes. -/
theorem c6_counterexample :
    ¬ (∀ (run : String → Except String String) (name : String),
        ((∃ e, run name = Except.error e) ∨
         (∃ out, run name = Except.ok out ∧ pyToInt (pyStrip out) = none)) →
        ∃ d c, get_pid_from_compose_name run name = Except.error (PyFatal.sysExit d c) ∧
          c ≠ 0) := by
  intro h
  obtain ⟨d, c, hc, -⟩ := h runOkAbc "box" (Or.inr ⟨"abc", rfl, rfl⟩)
  rw [show get_pid_from_compose_name runOkAbc "box" =
        Except.error (PyFatal.uncaught PyError.valueError) from rfl] at hc
  simp at hc

/-- C6 amended (proved): when the container-runtime lookup errors, the
resolver catches it and ends in the handled path — printed diagnostic and
sys.exit(1); when the lookup succeeds but its stdout is non-numeric, the
resolver ends in an uncaught ValueError instead.  Either way the process
terminates with a non-zero exit code. -/
theorem c6_amended_resolution_failure (run : String → Except String String) (name : String)
    (h : (∃ e, run name = Except.error e) ∨
         (∃ out, run name = Except.ok out ∧ pyToInt (pyStrip out) = none)) :
    (∃ r, get_pid_from_compose_name run name = Except.error r ∧ fatalExitCode r ≠ 0) ∧
    (∀ e, run name = Except.error e →
        get_pid_from_compose_name run name =
          Except.error (PyFatal.sysExit
            ("Could not resolve container '" ++ name ++ "': " ++ e) 1)) ∧
    (∀ out, run name = Except.ok out → pyToInt (pyStrip out) = none →
        get_pid_from_compose_name run name =
          Except.error (PyFatal.uncaught PyError.valueError)) := by
  refine ⟨?_, ?_, ?_⟩
  · rcases h with ⟨e, he⟩ | ⟨out, hout, hnum⟩
    · exact ⟨PyFatal.sysExit ("Could not resolve container '" ++ name ++ "': " ++ e) 1,
        by simp [get_pid_from_compose_name, he], by simp [fatalExitCode]⟩
    · exact ⟨PyFatal.uncaught PyError.valueError,
        by simp [get_pid_from_compose_name, hout, hnum], by simp [fatalExitCode]⟩
  · intro e he
    simp [get_pid_from_compose_name, he]
  · intro out hout hnum
    simp [get_pid_from_compose_name, hout, hnum]

/-- Witness for c6_amended_resolution_failure at a lookup returning the
non-numeric stdout "abc". -/
theorem c6_amended_resolution_failure_witness :
    ((∃ e, runOkAbc "box" = Except.error e) ∨
     (∃ out, runOkAbc "box" = Except.ok out ∧ pyToInt (pyStrip out) = none)) ∧
    ((∃ r, get_pid_from_compose_name runOkAbc "box" = Except.error r ∧ fatalExitCode r ≠ 0) ∧
     (∀ e, runOkAbc "box" = Except.error e →
        get_pid_from_compose_name runOkAbc "box" =
          Except.error (PyFatal.sysExit
            ("Could not resolve container '" ++ "box" ++ "': " ++ e) 1)) ∧
     (∀ out, runOkAbc "box" = Except.ok out → pyToInt (pyStrip out) = none →
        get_pid_from_compose_name runOkAbc "box" =
          Except.error (PyFatal.uncaught PyError.valueError))) :=
  ⟨Or.inr ⟨"abc", rfl, rfl⟩,
   c6_amended_resolution_failure runOkAbc "box" (Or.inr ⟨"abc", rfl, rfl⟩)⟩

/-- C5 (confirmed): whenever namespace entry is requested (the resolved
ns_pid is truthy) and the effective uid is not 0, main prints the
must-be-root diagnostic and exits with code 1, and its whole event trace
contains no socket creation. -/
theorem c5_nonroot_exit_before_socket (args : Args) (euid : Nat)
    (run : String → Except String String) (openNs : Int → Except String Unit)
    (parse : String → Option Json) (envs : List ExchEnv)
    (hreq : nsRequested args run = true) (heuid : euid ≠ 0) :
    (main_model args euid run openNs parse envs).2 = 1 ∧
    (∀ e ∈ (main_model args euid run openNs parse envs).1, e.isSockCreate = false) ∧
    ProgEvent.printDiag "Error: Must be root to enter a network namespace." ∈
      (main_model args euid run openNs parse envs).1 := by
  unfold nsRequested at hreq
  cases hr : resolveStep args run with
  | error f =>
      rw [hr] at hreq
      simp at hreq
  | ok nsPid =>
      rw [hr] at hreq
      cases nsPid with
      | none => simp at hreq
      | some pid =>
          have hpid : pid ≠ 0 := by simpa using hreq
          have hmain : main_model args euid run openNs parse envs =
              ([ProgEvent.printDiag "Error: Must be root to enter a network namespace."], 1) := by
            unfold main_model
            rw [hr]
            simp [hpid, enter_netns, heuid]
          rw [hmain]
          refine ⟨rfl, ?_, by simp⟩
          intro e he
          simp at he
          rw [he]
          rfl

/-- Witness for c5_nonroot_exit_before_socket at concrete arguments
requesting pid 5 with effective uid 1000. -/
theorem c5_nonroot_exit_before_socket_witness :
    nsRequested argsNsDemo runErrBoom = true ∧ (1000 : Nat) ≠ 0 ∧
    ((main_model argsNsDemo 1000 runErrBoom openNsOk noParse []).2 = 1 ∧
     (∀ e ∈ (main_model argsNsDemo 1000 runErrBoom openNsOk noParse []).1,
        e.isSockCreate = false) ∧
     ProgEvent.printDiag "Error: Must be root to enter a network namespace." ∈
       (main_model argsNsDemo 1000 runErrBoom openNsOk noParse []).1) :=
  ⟨rfl, by decide,
   c5_nonroot_exit_before_socket argsNsDemo 1000 runErrBoom openNsOk noParse [] rfl
     (by decide)⟩

/-- A call event read out of a mapped step list carries the index it was
mapped with. -/
theorem mapCall_idx {steps : List ExchStep} {i0 m i : Nat} {s : ExchStep}
    (h : (steps.map (SessEvent.call i0))[m]? = some (SessEvent.call i s)) : i = i0 := by
  rw [List.getElem?_map] at h
  cases hs : steps[m]? with
  | none => rw [hs] at h; simp at h
  | some st =>
      rw [hs] at h
      replace h : some (SessEvent.call i0 st) = some (SessEvent.call i s) := h
      injection h with h2
      injection h2 with h3 h4
      exact h3.symm

/-- Every call event in a session loop started at index i0 has call index
at least i0. -/
theorem sessionLoop_call_ge (port : Int) (cmd : String) (cfg : Config)
    (parse : String → Option Json) :
    ∀ (envs : List ExchEnv) (i0 i : Nat) (s : ExchStep),
      SessEvent.call i s ∈ (sessionLoop port cmd cfg parse i0 envs).1 → i0 ≤ i := by
  intro envs
  induction envs with
  | nil =>
      intro i0 i s h
      simp [sessionLoop] at h
  | cons env rest ih =>
      intro i0 i s h
      simp only [sessionLoop] at h
      cases hr : (send_and_receive port cmd cfg parse env).2 with
      | error e =>
          rw [hr] at h
          replace h : SessEvent.call i s ∈
              (send_and_receive port cmd cfg parse env).1.map (SessEvent.call i0) := h
          obtain ⟨a, -, ha⟩ := List.mem_map.mp h
          injection ha with h1 h2
          omega
      | ok out =>
          rw [hr] at h
          replace h : SessEvent.call i s ∈
              (send_and_receive port cmd cfg parse env).1.map (SessEvent.call i0) ++
                SessEvent.sleep5 :: (sessionLoop port cmd cfg parse (i0 + 1) rest).1 := h
          rcases List.mem_append.mp h with hA | hB
          · obtain ⟨a, -, ha⟩ := List.mem_map.mp hA
            injection ha with h1 h2
            omega
          · rcases List.mem_cons.mp hB with hs5 | htail
            · exact absurd hs5 (by simp)
            · have := ih (i0 + 1) i s htail
              omega

/-- Call events of earlier iterations sit strictly earlier in the session
trace than call events of later iterations. -/
theorem sessionLoop_ordered (port : Int) (cmd : String) (cfg : Config)
    (parse : String → Option Json) :
    ∀ (envs : List ExchEnv) (i0 j k i i' : Nat) (s s' : ExchStep),
      ((sessionLoop port cmd cfg parse i0 envs).1)[j]? = some (SessEvent.call i s) →
      ((sessionLoop port cmd cfg parse i0 envs).1)[k]? = some (SessEvent.call i' s') →
      i < i' → j < k := by
  intro envs
  induction envs with
  | nil =>
      intro i0 j k i i' s s' hj hk hlt
      simp [sessionLoop] at hj
  | cons env rest ih =>
      intro i0 j k i i' s s' hj hk hlt
      simp only [sessionLoop] at hj hk
      cases hr : (send_and_receive port cmd cfg parse env).2 with
      | error e =>
          rw [hr] at hj hk
          replace hj : ((send_and_receive port cmd cfg parse env).1.map
              (SessEvent.call i0))[j]? = some (SessEvent.call i s) := hj
          replace hk : ((send_and_receive port cmd cfg parse env).1.map
              (SessEvent.call i0))[k]? = some (SessEvent.call i' s') := hk
          have hi : i = i0 := mapCall_idx hj
          have hi' : i' = i0 := mapCall_idx hk
          omega
      | ok out =>
          rw [hr] at hj hk
          replace hj : ((send_and_receive port cmd cfg parse env).1.map (SessEvent.call i0) ++
              SessEvent.sleep5 :: (sessionLoop port cmd cfg parse (i0 + 1) rest).1)[j]? =
              some (SessEvent.call i s) := hj
          replace hk : ((send_and_receive port cmd cfg parse env).1.map (SessEvent.call i0) ++
              SessEvent.sleep5 :: (sessionLoop port cmd cfg parse (i0 + 1) rest).1)[k]? =
              some (SessEvent.call i' s') := hk
          by_cases hjA : j < ((send_and_receive port cmd cfg parse env).1.map
              (SessEvent.call i0)).length
          · by_cases hkA : k < ((send_and_receive port cmd cfg parse env).1.map
                (SessEvent.call i0)).length
            · rw [List.getElem?_append_left hjA] at hj
              rw [List.getElem?_append_left hkA] at hk
              have hi : i = i0 := mapCall_idx hj
              have hi' : i' = i0 := mapCall_idx hk
              omega
            · omega
          · rw [List.getElem?_append_right (by omega)] at hj
            cases hdj : j - ((send_and_receive port cmd cfg parse env).1.map
                (SessEvent.call i0)).length with
            | zero =>
                rw [hdj] at hj
                simp at hj
            | succ m =>
                rw [hdj, List.getElem?_cons_succ] at hj
                have hge : i0 + 1 ≤ i :=
                  sessionLoop_call_ge port cmd cfg parse rest (i0 + 1) i s
                    (List.getElem?_mem hj)
                by_cases hkA : k < ((send_and_receive port cmd cfg parse env).1.map
                    (SessEvent.call i0)).length
                · rw [List.getElem?_append_left hkA] at hk
                  have hi' : i' = i0 := mapCall_idx hk
                  omega
                · rw [List.getElem?_append_right (by omega)] at hk
                  cases hdk : k - ((send_and_receive port cmd cfg parse env).1.map
                      (SessEvent.call i0)).length with
                  | zero =>
                      rw [hdk] at hk
                      simp at hk
                  | succ m' =>
                      rw [hdk, List.getElem?_cons_succ] at hk
                      have hmm := ih (i0 + 1) m m' i i' s s' hj hk hlt
                      omega

/-- Records attributed to the index a step list was mapped with are exactly
that call's log records. -/
theorem recordsAt_map_call_self (i0 : Nat) (steps : List ExchStep) :
    recordsAt i0 (steps.map (SessEvent.call i0)) = logsOf steps := by
  induction steps with
  | nil => rfl
  | cons st rest ih =>
      cases st <;> simp [recordsAt, logsOf, List.filterMap_cons] at ih ⊢ <;> exact ih

/-- Records attributed to any other index than the one a step list was
mapped with are empty. -/
theorem recordsAt_map_call_ne (i i0 : Nat) (h : i0 ≠ i) (steps : List ExchStep) :
    recordsAt i (steps.map (SessEvent.call i0)) = [] := by
  induction steps with
  | nil => rfl
  | cons st rest ih =>
      cases st <;> simp [recordsAt, List.filterMap_cons, h] at ih ⊢ <;> exact ih

/-- recordsAt distributes over list append. -/
theorem recordsAt_append (i : Nat) (l1 l2 : List SessEvent) :
    recordsAt i (l1 ++ l2) = recordsAt i l1 ++ recordsAt i l2 :=
  List.filterMap_append l1 l2 _

/-- A sleep event contributes no log record. -/
theorem recordsAt_sleep_cons (i : Nat) (l : List SessEvent) :
    recordsAt i (SessEvent.sleep5 :: l) = recordsAt i l := rfl

/-- A session loop started above the attributed index contributes no
records to it. -/
theorem recordsAt_sessionLoop_lt (port : Int) (cmd : String) (cfg : Config)
    (parse : String → Option Json) :
    ∀ (envs : List ExchEnv) (i0 i : Nat), i < i0 →
      recordsAt i (sessionLoop port cmd cfg parse i0 envs).1 = [] := by
  intro envs
  induction envs with
  | nil => intro i0 i h; rfl
  | cons env rest ih =>
      intro i0 i h
      simp only [sessionLoop]
      cases hr : (send_and_receive port cmd cfg parse env).2 with
      | error e =>
          exact recordsAt_map_call_ne i i0 (by omega) _
      | ok out =>
          show recordsAt i ((send_and_receive port cmd cfg parse env).1.map (SessEvent.call i0) ++
              SessEvent.sleep5 :: (sessionLoop port cmd cfg parse (i0 + 1) rest).1) = []
          rw [recordsAt_append, recordsAt_map_call_ne i i0 (by omega), List.nil_append,
            recordsAt_sleep_cons]
          exact ih (i0 + 1) i (by omega)

/-- The records attributed to iteration d of a session loop (whose calls
all return normally) are exactly the log records of that call. -/
theorem recordsAt_sessionLoop (port : Int) (cmd : String) (cfg : Config)
    (parse : String → Option Json) :
    ∀ (envs : List ExchEnv) (i0 d : Nat),
      (∀ env ∈ envs, exceptOk (send_and_receive port cmd cfg parse env).2 = true) →
      ∀ (hd : d < envs.length),
      recordsAt (i0 + d) (sessionLoop port cmd cfg parse i0 envs).1 =
        logsOf (send_and_receive port cmd cfg parse (envs.get ⟨d, hd⟩)).1 := by
  intro envs
  induction envs with
  | nil =>
      intro i0 d hok hd
      exact absurd hd (by simp)
  | cons env rest ih =>
      intro i0 d hok hd
      have hokenv : exceptOk (send_and_receive port cmd cfg parse env).2 = true :=
        hok env (List.mem_cons_self env rest)
      simp only [sessionLoop]
      cases hr : (send_and_receive port cmd cfg parse env).2 with
      | error e =>
          rw [hr] at hokenv
          simp [exceptOk] at hokenv
      | ok out =>
          show recordsAt (i0 + d)
              ((send_and_receive port cmd cfg parse env).1.map (SessEvent.call i0) ++
                SessEvent.sleep5 :: (sessionLoop port cmd cfg parse (i0 + 1) rest).1) =
            logsOf (send_and_receive port cmd cfg parse ((env :: rest).get ⟨d, hd⟩)).1
          cases d with
          | zero =>
              rw [recordsAt_append, recordsAt_sleep_cons, Nat.add_zero,
                recordsAt_map_call_self,
                recordsAt_sessionLoop_lt port cmd cfg parse rest (i0 + 1) i0 (by omega),
                List.append_nil]
              rfl
          | succ d' =>
              have hd' : d' < rest.length := by
                simp only [List.length_cons] at hd
                omega
              rw [recordsAt_append, recordsAt_sleep_cons,
                recordsAt_map_call_ne (i0 + (d' + 1)) i0 (by omega), List.nil_append,
                show i0 + (d' + 1) = (i0 + 1) + d' from by omega,
                ih (i0 + 1) d' (fun e he => hok e (List.mem_cons_of_mem env he)) hd']
              rfl

/-- C3 (confirmed): in the session loop, the log records attributed to
iteration d are exactly the records the d-th exchange writes — the outcome
is forwarded to the logging sink inside its own call, filtered only by the
configured policy, never dropped or batched — and every event of an
earlier call sits strictly before every event of a later call in the
trace, so the forwarding completes before the next iteration begins. -/
theorem c3_outcome_forwarded_before_next (port : Int) (cmd : String) (cfg : Config)
    (parse : String → Option Json) (envs : List ExchEnv)
    (hok : ∀ env ∈ envs, exceptOk (send_and_receive port cmd cfg parse env).2 = true)
    (d : Nat) (hd : d < envs.length) :
    recordsAt d (sessionLoop port cmd cfg parse 0 envs).1 =
      logsOf (send_and_receive port cmd cfg parse (envs.get ⟨d, hd⟩)).1 ∧
    (∀ (j k i i' : Nat) (s s' : ExchStep),
      ((sessionLoop port cmd cfg parse 0 envs).1)[j]? = some (SessEvent.call i s) →
      ((sessionLoop port cmd cfg parse 0 envs).1)[k]? = some (SessEvent.call i' s') →
      i < i' → j < k) := by
  constructor
  · have h := recordsAt_sessionLoop port cmd cfg parse envs 0 d hok hd
    simpa using h
  · intro j k i i' s s' hj hk hlt
    exact sessionLoop_ordered port cmd cfg parse envs 0 j k i i' s s' hj hk hlt

/-- Witness for c3_outcome_forwarded_before_next on a two-iteration session
whose exchanges both time out, with the all policy. -/
theorem c3_outcome_forwarded_before_next_witness :
    (∀ env ∈ [ExchEnv.timeout, ExchEnv.timeout],
        exceptOk (send_and_receive 44440 "q" cfgLogAll noParse env).2 = true) ∧
    (0 : Nat) < ([ExchEnv.timeout, ExchEnv.timeout] : List ExchEnv).length ∧
    (recordsAt 0 (sessionLoop 44440 "q" cfgLogAll noParse 0
        [ExchEnv.timeout, ExchEnv.timeout]).1 =
      logsOf (send_and_receive 44440 "q" cfgLogAll noParse
        (([ExchEnv.timeout, ExchEnv.timeout] : List ExchEnv).get ⟨0, by decide⟩)).1 ∧
     (∀ (j k i i' : Nat) (s s' : ExchStep),
        ((sessionLoop 44440 "q" cfgLogAll noParse 0
            [ExchEnv.timeout, ExchEnv.timeout]).1)[j]? = some (SessEvent.call i s) →
        ((sessionLoop 44440 "q" cfgLogAll noParse 0
            [ExchEnv.timeout, ExchEnv.timeout]).1)[k]? = some (SessEvent.call i' s') →
        i < i' → j < k)) :=
  ⟨by decide, by decide,
   c3_outcome_forwarded_before_next 44440 "q" cfgLogAll noParse
     [ExchEnv.timeout, ExchEnv.timeout] (by decide) 0 (by decide)⟩

end UdpTestRemote
